import Mathlib

/-!
Verification of the flutter_pdf_render native layer.

The observed sources are:
* `src/windows/sobar/include/sobar.h` — the C ABI of the `sobar` pdfium
  wrapper (declarations, enums and flag values);
* `src/windows/pdf_render_plugin.cpp` — the Windows plugin
  (engine setup in the constructor, teardown in the destructor, and the
  method-call handler);
* `src/android/c++/directBufferAndroid.cpp` — JNI helpers exposing
  `malloc`/`free` and `NewDirectByteBuffer` zero-copy wrapping.

The sobar implementation itself is not among the observed sources (only its
header is), so the behaviour of the document/page/bitmap operations is
modelled from the specification where needed; such definitions carry a
doc comment starting with `Modelled from the spec:`.
-/

/- ================================================================
   Render flags (sobar.h, enum sbr_RenderFlags)
   ================================================================ -/

def sbr_rfAnnot : Nat := 1
def sbr_rfTextLCD : Nat := 2
def sbr_rfNoNativeTextRendering : Nat := 4
def sbr_rfGrayscale : Nat := 8
def sbr_rfDebug : Nat := 0x80
def sbr_rfNoCatch : Nat := 0x100
def sbr_rfLimitedCache : Nat := 0x200
def sbr_rfHalfTone : Nat := 0x400
def sbr_rfForPrinting : Nat := 0x800
def sbr_rfNoSmoothText : Nat := 0x1000
def sbr_rfNoSmoothImage : Nat := 0x2000
def sbr_rfNoSmoothPath : Nat := 0x4000
def sbr_rfReverseByteOrder : Nat := 0x10
def sbr_rfNoWhiteFill : Nat := 0x20

/-- The full list of render-flag values declared in `enum sbr_RenderFlags`,
in declaration order. -/
def sbr_RenderFlagsList : List Nat :=
  [sbr_rfAnnot, sbr_rfTextLCD, sbr_rfNoNativeTextRendering, sbr_rfGrayscale,
   sbr_rfDebug, sbr_rfNoCatch, sbr_rfLimitedCache, sbr_rfHalfTone,
   sbr_rfForPrinting, sbr_rfNoSmoothText, sbr_rfNoSmoothImage,
   sbr_rfNoSmoothPath, sbr_rfReverseByteOrder, sbr_rfNoWhiteFill]

/-- Behaviour toggles controlled by the render-flag bitmask.  Fields are
named after the behaviours listed in the flag comments of `sobar.h`. -/
structure RenderConfig where
  renderAnnotations : Bool
  lcdText : Bool
  nativeText : Bool
  grayscale : Bool
  debugInfo : Bool
  catchFaults : Bool
  limitedCache : Bool
  halftone : Bool
  forPrinting : Bool
  smoothText : Bool
  smoothImage : Bool
  smoothPath : Bool
  reverseByteOrder : Bool
  whiteFill : Bool
deriving DecidableEq

/-- Test for a flag bit in a bitmask. -/
def hasFlag (flags f : Nat) : Bool := flags &&& f != 0

/-- Modelled from the spec: the interpretation of the flag bitmask by the
render pipeline (the engine side is not among the observed sources).  Each
flag is a pure modifier of one behaviour; the `No...` flags disable a
behaviour that is on by default (anti-aliasing, white-fill, internal
exception catching). -/
def applyRenderFlags (flags : Nat) : RenderConfig :=
  { renderAnnotations := hasFlag flags sbr_rfAnnot
    lcdText := hasFlag flags sbr_rfTextLCD
    nativeText := !hasFlag flags sbr_rfNoNativeTextRendering
    grayscale := hasFlag flags sbr_rfGrayscale
    debugInfo := hasFlag flags sbr_rfDebug
    catchFaults := !hasFlag flags sbr_rfNoCatch
    limitedCache := hasFlag flags sbr_rfLimitedCache
    halftone := hasFlag flags sbr_rfHalfTone
    forPrinting := hasFlag flags sbr_rfForPrinting
    smoothText := !hasFlag flags sbr_rfNoSmoothText
    smoothImage := !hasFlag flags sbr_rfNoSmoothImage
    smoothPath := !hasFlag flags sbr_rfNoSmoothPath
    reverseByteOrder := hasFlag flags sbr_rfReverseByteOrder
    whiteFill := !hasFlag flags sbr_rfNoWhiteFill }

/- ================================================================
   Clockwise rotation (sobar.h, enum sbr_RotateClockwise)
   ================================================================ -/

/-- `enum sbr_RotateClockwise` of `sobar.h`: the four clockwise
quarter-turns accepted by `sbr_PdfPageRender`. -/
inductive sbr_RotateClockwise where
  | rc0
  | rc90
  | rc180
  | rc270
deriving DecidableEq

/-- The ABI value of each rotation (the C enum value). -/
def sbr_RotateClockwise.toAbi : sbr_RotateClockwise → Nat
  | .rc0 => 0
  | .rc90 => 1
  | .rc180 => 2
  | .rc270 => 3

/-- The clockwise rotation in degrees denoted by each enum value, per the
comments in `sobar.h`. -/
def sbr_RotateClockwise.degrees : sbr_RotateClockwise → Nat
  | .rc0 => 0
  | .rc90 => 90
  | .rc180 => 180
  | .rc270 => 270

/- ================================================================
   Windows plugin (pdf_render_plugin.cpp)
   ================================================================ -/

/-- A response sent through a `MethodResult`: `Success(value)` with an
integer-encoded value, or `NotImplemented`. -/
inductive MethodResponse where
  | success : Nat → MethodResponse
  | notImplemented : MethodResponse
deriving DecidableEq

/-- Truncation to 32 bits, the effect of `reinterpret_cast<uint32_t>` on
the pointer value in `HandleMethodCall`. -/
def castUInt32 (n : Nat) : Nat := n % 2 ^ 32

/-- The ambient state the plugin handler reads: the (pointer) value that
the external call `sbr_PdfDocumentOpenFile()` returns. -/
structure PluginEnv where
  openFileResult : Nat
deriving DecidableEq

/-- `PdfRenderPlugin::HandleMethodCall` of `pdf_render_plugin.cpp`:
compares the method name against "file", "asset", "data", "close" in that
order; "file" responds `Success` with the `sbr_PdfDocumentOpenFile` result
cast to `uint32_t`, the other three respond `Success(0)`, anything else
responds `NotImplemented`.  The call's arguments are never inspected. -/
def HandleMethodCall (env : PluginEnv) (methodName : String)
    (arguments : List Nat) : MethodResponse :=
  if methodName = "file" then
    MethodResponse.success (castUInt32 env.openFileResult)
  else if methodName = "asset" then
    MethodResponse.success 0
  else if methodName = "data" then
    MethodResponse.success 0
  else if methodName = "close" then
    MethodResponse.success 0
  else
    MethodResponse.notImplemented

/-- An engine-level call made by the plugin, as observed at the sobar ABI
boundary. -/
inductive EngineCall where
  | engineSetup
  | engineTeardown
  | docOpenFile
  | docClose
deriving DecidableEq

/-- The engine calls performed while handling one method call: only the
"file" branch calls into the engine (`sbr_PdfDocumentOpenFile`); "asset",
"data" and "close" respond without touching any engine resource. -/
def methodEngineCalls (methodName : String) : List EngineCall :=
  if methodName = "file" then [EngineCall.docOpenFile] else []

/-- The engine-call trace of one plugin lifetime: the constructor
`PdfRenderPlugin::PdfRenderPlugin` calls `sbr_Initialize`, then the given
method calls are handled, then the destructor calls `sbr_Finalize`. -/
def pluginLifetimeTrace (methods : List String) : List EngineCall :=
  [EngineCall.engineSetup] ++
    (methods.map methodEngineCalls).flatten ++ [EngineCall.engineTeardown]

/-- Number of document handles still open when the destructor runs:
documents opened by the "file" branch minus documents ever closed (the
"close" branch closes nothing). -/
def handlesOpenAtTeardown (methods : List String) : Nat :=
  (pluginLifetimeTrace methods).count EngineCall.docOpenFile -
    (pluginLifetimeTrace methods).count EngineCall.docClose

/- ================================================================
   Handle registry and document operations (modelled: the sobar
   implementation is absent from the observed sources; sobar.h declares
   the entry points)
   ================================================================ -/

/-- Lifecycle state of a handle in the registry:
`Uninitialized → Open → Closed`, `Closed` terminal. -/
inductive HandleState where
  | unopened
  | opened
  | closed
deriving DecidableEq

/-- Result of a close operation on a handle. -/
inductive CloseResult where
  | ok
  | doubleCloseError
deriving DecidableEq

/-- Modelled from the spec: `sbr_PdfDocumentClose` (declared in `sobar.h`;
its implementation is not among the observed sources).  On an Open handle
it releases the resource and marks the handle Closed; on a Closed or
never-opened handle it is a no-op-safe error (`DoubleCloseError`) that
leaves the registry untouched.  The registry is the map from handle to
state. -/
def sbr_PdfDocumentClose (r : Nat → HandleState) (h : Nat) :
    CloseResult × (Nat → HandleState) :=
  match r h with
  | HandleState.opened =>
      (CloseResult.ok, fun k => if k = h then HandleState.closed else r k)
  | _ => (CloseResult.doubleCloseError, r)

/-- Modelled from the spec: an accessor (here the page-count query
`sbr_PdfDocumentGetPageCount`) succeeds only on a handle in the Open
state; on any other handle it fails (`InvalidHandleError`, modelled as
`none`), never returning garbage data.  `pc` gives each open document's
page count. -/
def docAccessor (r : Nat → HandleState) (pc : Nat → Nat) (h : Nat) :
    Option Nat :=
  if r h = HandleState.opened then some (pc h) else none

/-- Validity environment for a render call: the registry states of page
handles and of bitmap handles. -/
structure RenderEnv where
  pages : Nat → HandleState
  bitmaps : Nat → HandleState

/-- Modelled from the spec: `sbr_PdfPageRender` (declared in `sobar.h`;
its implementation is not among the observed sources).  It returns an
`int` with 0 as the failure sentinel: failure whenever the page handle or
the bitmap handle is not Open, or the destination rectangle is degenerate
(zero or negative width or height); otherwise the engine rasterizes and a
nonzero success value (modelled as 1) is returned. -/
def sbr_PdfPageRender (e : RenderEnv) (page bmp : Nat) (x y : Int)
    (width height : Int) (rotate : sbr_RotateClockwise) (flags : Nat) : Int :=
  if e.pages page ≠ HandleState.opened then 0
  else if e.bitmaps bmp ≠ HandleState.opened then 0
  else if width ≤ 0 then 0
  else if height ≤ 0 then 0
  else 1

/- ================================================================
   Bitmap lifecycle (modelled)
   ================================================================ -/

/-- A bitmap record as created by `sbr_PdfBitmapCreate`: the geometry, the
caller-supplied pixel memory, and the release callback with its context.
Callbacks and contexts are identified by abstract tokens. -/
structure BitmapModel where
  width : Int
  height : Int
  format : Nat
  stride : Int
  scan0 : Nat
  releaseCallback : Nat
  context : Nat
  released : Bool
deriving DecidableEq

/-- Modelled from the spec: `sbr_PdfBitmapCreate` (declared in `sobar.h`;
its implementation is not among the observed sources) records the
caller's buffer, release callback and context in a fresh, not-yet-released
bitmap. -/
def sbr_PdfBitmapCreate (width height : Int) (format : Nat) (stride : Int)
    (scan0 : Nat) (callback context : Nat) : BitmapModel :=
  { width := width, height := height, format := format, stride := stride,
    scan0 := scan0, releaseCallback := callback, context := context,
    released := false }

/-- Modelled from the spec: `sbr_PdfBitmapRelease` (declared in `sobar.h`;
its implementation is not among the observed sources).  Exactly one
release path fires per bitmap: the first release invokes the release
callback with the context stored at creation and marks the bitmap
released; a release of an already-released bitmap fires nothing.  The
second component lists the callback invocations `(callback, context)`
performed by the call. -/
def sbr_PdfBitmapRelease (b : BitmapModel) :
    BitmapModel × List (Nat × Nat) :=
  if b.released then (b, [])
  else ({ b with released := true }, [(b.releaseCallback, b.context)])

/- ================================================================
   Custom source adapter (modelled)
   ================================================================ -/

/-- An event in the lifetime of a Document opened through
`sbr_PdfDocumentOpenCustom`, as seen by the host's source callbacks. -/
inductive CustomSourceEvent where
  | readCall (offset length : Nat)
  | docCloseCall
  | releaseCall (ctx : Nat)
deriving DecidableEq

/-- Modelled from the spec: the lifetime of a Document opened by
`sbr_PdfDocumentOpenCustom` (declared in `sobar.h`; its implementation is
not among the observed sources) once the source was accepted.  `reads`
lists the (offset, length) read requests the engine issued (possibly
none, e.g. on a malformed size); if document construction succeeds the
source release callback fires when the Document is closed, and if
construction fails it fires immediately — in both cases exactly once,
with the context accepted at open. -/
def sbr_PdfDocumentOpenCustomLifecycle (ctx : Nat)
    (reads : List (Nat × Nat)) (constructionOk : Bool) :
    List CustomSourceEvent :=
  if constructionOk then
    (reads.map fun r => CustomSourceEvent.readCall r.1 r.2) ++
      [CustomSourceEvent.docCloseCall, CustomSourceEvent.releaseCall ctx]
  else
    (reads.map fun r => CustomSourceEvent.readCall r.1 r.2) ++
      [CustomSourceEvent.releaseCall ctx]

/-- The contexts passed to the source release callback over a lifetime, in
order. -/
def releaseCallContexts : List CustomSourceEvent → List Nat
  | [] => []
  | CustomSourceEvent.releaseCall c :: rest => c :: releaseCallContexts rest
  | _ :: rest => releaseCallContexts rest

/- ================================================================
   Direct buffers (directBufferAndroid.cpp)
   ================================================================ -/

/-- Byte-addressed memory: the value stored at each address. -/
def Mem : Type := Nat → Nat

/-- A JNI direct `ByteBuffer`: a zero-copy view recording only the base
address and size of the wrapped block. -/
structure DirectByteBuffer where
  base : Nat
  size : Nat
deriving DecidableEq

/-- `ByteBufferHelper.newDirectBuffer` of `directBufferAndroid.cpp`: wraps
the raw address as a direct ByteBuffer over the same memory via JNI
`NewDirectByteBuffer`, copying no bytes — the view holds only the address
and size. -/
def Java_jp_espresso3389_pdf_1render_ByteBufferHelper_newDirectBuffer
    (ptr size : Nat) : DirectByteBuffer :=
  { base := ptr, size := size }

/-- Allocator accounting: the next free address of the (modelled) C heap. -/
structure AllocState where
  nextFree : Nat
deriving DecidableEq

/-- `ByteBufferHelper.malloc` of `directBufferAndroid.cpp`: `malloc(size)`
returns the address of a fresh block of `size` bytes (the C allocator is
modelled as a bump allocator over an abstract address space). -/
def Java_jp_espresso3389_pdf_1render_ByteBufferHelper_malloc
    (s : AllocState) (size : Nat) : AllocState × Nat :=
  ({ nextFree := s.nextFree + size }, s.nextFree)

/-- Store one byte at an address. -/
def writeByte (m : Mem) (a v : Nat) : Mem :=
  fun x => if x = a then v else m x

/-- Store a byte pattern at consecutive addresses starting at `addr`. -/
def writeBytes (m : Mem) (addr : Nat) : List Nat → Mem
  | [] => m
  | v :: rest => writeBytes (writeByte m addr v) (addr + 1) rest

/-- Write a byte pattern through a direct-buffer view: the bytes land in
the underlying memory at the view's base address (zero-copy aliasing). -/
def viewWrite (m : Mem) (v : DirectByteBuffer) (pattern : List Nat) : Mem :=
  writeBytes m v.base pattern

/-- Read `n` bytes back through a direct-buffer view. -/
def viewRead (m : Mem) (v : DirectByteBuffer) (n : Nat) : List Nat :=
  (List.range n).map fun i => m (v.base + i)

/- ================================================================
   OpenMemory and page count (modelled)
   ================================================================ -/

/-- A document as the host observes it: its page count. -/
structure PdfDocumentModel where
  pageCount : Nat
deriving DecidableEq

/-- The underlying engine's parse capability, a pure function of the
input bytes and password: `none` is an open error, `some d` an opened
document. -/
structure PdfEngineModel where
  parse : List Nat → Option String → Option PdfDocumentModel

/-- Modelled from the spec: `sbr_PdfDocumentOpenMemory` (declared in
`sobar.h`; its implementation is not among the observed sources) hands
the in-memory block and password to the engine's parser and returns the
opened document or an open error. -/
def sbr_PdfDocumentOpenMemory (e : PdfEngineModel) (data : List Nat)
    (password : Option String) : Option PdfDocumentModel :=
  e.parse data password

/-- Modelled from the spec: `sbr_PdfDocumentGetPageCount` (declared in
`sobar.h`) returns the page count of an open document. -/
def sbr_PdfDocumentGetPageCount (doc : PdfDocumentModel) : Nat :=
  doc.pageCount

/-- One run of `OpenMemory` followed by `GetPageCount` on the bytes
`data` with password `password`. -/
def openMemoryThenPageCount (e : PdfEngineModel) (data : List Nat)
    (password : Option String) : Option Nat :=
  (sbr_PdfDocumentOpenMemory e data password).map sbr_PdfDocumentGetPageCount

/- ================================================================
   Concrete instances used by the witnesses
   ================================================================ -/

/-- A concrete registry: document handles 0 and 1 are open, every other
handle was never opened. -/
def witnessRegistry : Nat → HandleState := fun k =>
  if k = 0 then HandleState.opened
  else if k = 1 then HandleState.opened
  else HandleState.unopened

/-- A concrete page-count table. -/
def witnessPageCounts : Nat → Nat := fun _ => 7

/-- A render environment in which no page or bitmap handle is open. -/
def invalidRenderEnv : RenderEnv :=
  { pages := fun _ => HandleState.unopened,
    bitmaps := fun _ => HandleState.unopened }

/-- A concrete engine whose parser counts the input bytes as pages. -/
def witnessEngine : PdfEngineModel :=
  { parse := fun data _ => some { pageCount := data.length } }

/- ================================================================
   C5 / C9 theorems
   ================================================================ -/

/-- C5: the recognized render flags are pairwise-distinct single-bit
values (each a power of two), combinable by bitwise OR with no ordering
dependency, and a zero bitmask (all bits unset) selects the default engine
behaviour: anti-aliasing on for text, images and paths, white-fill
performed, and exceptions caught internally. -/
theorem sbr_RenderFlags_independent_single_bits :
    (∀ f ∈ sbr_RenderFlagsList, ∃ k, f = 2 ^ k) ∧
    sbr_RenderFlagsList.Pairwise (fun a b => a ≠ b) ∧
    (∀ a b : Nat, applyRenderFlags (a ||| b) = applyRenderFlags (b ||| a)) ∧
    (applyRenderFlags 0).smoothText = true ∧
    (applyRenderFlags 0).smoothImage = true ∧
    (applyRenderFlags 0).smoothPath = true ∧
    (applyRenderFlags 0).whiteFill = true ∧
    (applyRenderFlags 0).catchFaults = true := by
  refine ⟨?_, ?_, ?_, ?_, ?_, ?_, ?_, ?_⟩
  · intro f hf
    fin_cases hf
    · exact ⟨0, rfl⟩
    · exact ⟨1, rfl⟩
    · exact ⟨2, rfl⟩
    · exact ⟨3, rfl⟩
    · exact ⟨7, rfl⟩
    · exact ⟨8, rfl⟩
    · exact ⟨9, rfl⟩
    · exact ⟨10, rfl⟩
    · exact ⟨11, rfl⟩
    · exact ⟨12, rfl⟩
    · exact ⟨13, rfl⟩
    · exact ⟨14, rfl⟩
    · exact ⟨4, rfl⟩
    · exact ⟨5, rfl⟩
  · decide
  · intro a b
    rw [Nat.lor_comm]
  · decide
  · decide
  · decide
  · decide
  · decide

/-- C5 witness: concrete instantiation of the quantified parts. -/
theorem sbr_RenderFlags_independent_single_bits_witness :
    (sbr_rfDebug ∈ sbr_RenderFlagsList ∧ ∃ k, sbr_rfDebug = 2 ^ k) ∧
    applyRenderFlags (sbr_rfAnnot ||| sbr_rfNoWhiteFill) =
      applyRenderFlags (sbr_rfNoWhiteFill ||| sbr_rfAnnot) :=
  ⟨⟨by decide,
    sbr_RenderFlags_independent_single_bits.1 sbr_rfDebug (by decide)⟩,
   sbr_RenderFlags_independent_single_bits.2.2.1 sbr_rfAnnot sbr_rfNoWhiteFill⟩

/-- C9: the render rotation parameter ranges over exactly the four
clockwise quarter-turns 0, 90, 180, 270 degrees, and the ABI encodes them
as the enum values 0, 1, 2, 3 — each equal to the degrees divided by 90. -/
theorem sbr_RotateClockwise_abi_encoding :
    (∀ r : sbr_RotateClockwise,
      (r.degrees = 0 ∨ r.degrees = 90 ∨ r.degrees = 180 ∨ r.degrees = 270) ∧
      r.toAbi = r.degrees / 90) ∧
    (∀ d, (d = 0 ∨ d = 90 ∨ d = 180 ∨ d = 270) →
      ∃ r : sbr_RotateClockwise, r.degrees = d) := by
  constructor
  · intro r
    cases r <;> exact ⟨by decide, rfl⟩
  · intro d hd
    rcases hd with rfl | rfl | rfl | rfl
    · exact ⟨.rc0, rfl⟩
    · exact ⟨.rc90, rfl⟩
    · exact ⟨.rc180, rfl⟩
    · exact ⟨.rc270, rfl⟩

/-- C9 witness: concrete instantiation at rotation 270 degrees. -/
theorem sbr_RotateClockwise_abi_encoding_witness :
    ((sbr_RotateClockwise.rc270.degrees = 0 ∨
      sbr_RotateClockwise.rc270.degrees = 90 ∨
      sbr_RotateClockwise.rc270.degrees = 180 ∨
      sbr_RotateClockwise.rc270.degrees = 270) ∧
     sbr_RotateClockwise.rc270.toAbi = sbr_RotateClockwise.rc270.degrees / 90) ∧
    ((270 : Nat) = 0 ∨ (270 : Nat) = 90 ∨ (270 : Nat) = 180 ∨ (270 : Nat) = 270) ∧
    ∃ r : sbr_RotateClockwise, r.degrees = 270 :=
  ⟨sbr_RotateClockwise_abi_encoding.1 .rc270,
   by decide,
   sbr_RotateClockwise_abi_encoding.2 270 (by decide)⟩

/- ================================================================
   C10 / C8 theorems (Windows plugin)
   ================================================================ -/

/-- C10: the plugin's method handler's response is determined solely by
the method name (and the ambient engine state), never by the call's
arguments: "file" responds Success with the `sbr_PdfDocumentOpenFile`
result cast to a 32-bit unsigned integer; "asset", "data" and "close"
respond Success 0 without opening or closing any resource; every other
method name responds NotImplemented. -/
theorem HandleMethodCall_depends_only_on_name (env : PluginEnv)
    (methodName : String) (args args2 : List Nat) :
    HandleMethodCall env methodName args = HandleMethodCall env methodName args2 ∧
    HandleMethodCall env "file" args =
      MethodResponse.success (castUInt32 env.openFileResult) ∧
    HandleMethodCall env "asset" args = MethodResponse.success 0 ∧
    HandleMethodCall env "data" args = MethodResponse.success 0 ∧
    HandleMethodCall env "close" args = MethodResponse.success 0 ∧
    methodEngineCalls "asset" = [] ∧
    methodEngineCalls "data" = [] ∧
    methodEngineCalls "close" = [] ∧
    (methodName ≠ "file" → methodName ≠ "asset" → methodName ≠ "data" →
      methodName ≠ "close" →
      HandleMethodCall env methodName args = MethodResponse.notImplemented) := by
  refine ⟨rfl, rfl, rfl, rfl, rfl, rfl, rfl, rfl, ?_⟩
  intro h1 h2 h3 h4
  simp [HandleMethodCall, h1, h2, h3, h4]

/-- C10 witness: an unrecognized method name gets NotImplemented. -/
theorem HandleMethodCall_depends_only_on_name_witness :
    HandleMethodCall ⟨5⟩ "render" [1] = MethodResponse.notImplemented :=
  (HandleMethodCall_depends_only_on_name ⟨5⟩ "render" [1] [2]).2.2.2.2.2.2.2.2
    (by decide) (by decide) (by decide) (by decide)

/-- C8 counterexample: after the plugin handles one "file" method call, a
document opened by `sbr_PdfDocumentOpenFile` is still open when the
destructor calls `sbr_Finalize` (the "close" branch closes nothing), so
Finalize does not come after all handles are closed. -/
theorem plugin_teardown_with_open_handle :
    handlesOpenAtTeardown ["file"] = 1 ∧ ¬ handlesOpenAtTeardown ["file"] = 0 := by
  decide

/-- Helper: any engine call made while handling a method is a
`docOpenFile` call. -/
theorem methodEngineCalls_mem {methodName : String} {e : EngineCall}
    (h : e ∈ methodEngineCalls methodName) : e = EngineCall.docOpenFile := by
  unfold methodEngineCalls at h
  split at h
  · simpa using h
  · simp at h

/-- Helper: every engine call between setup and teardown in a plugin
lifetime is a `docOpenFile` call. -/
theorem join_engineCalls_docOpen {methods : List String} {e : EngineCall}
    (h : e ∈ (methods.map methodEngineCalls).flatten) :
    e = EngineCall.docOpenFile := by
  rcases List.mem_flatten.1 h with ⟨l, hl, hel⟩
  rcases List.mem_map.1 hl with ⟨name, _, rfl⟩
  exact methodEngineCalls_mem hel

/-- C8 (amended): in every Windows-plugin lifetime, engine setup
(`sbr_Initialize`) is performed exactly once, by the constructor, before
any other engine call, and engine teardown (`sbr_Finalize`) exactly once,
by the destructor, after every other engine call; but teardown is not
guaranteed to come after all handles are closed, since a document opened
by the "file" method is never closed. -/
theorem plugin_lifecycle_setup_teardown_once (methods : List String) :
    (pluginLifetimeTrace methods).count EngineCall.engineSetup = 1 ∧
    (pluginLifetimeTrace methods).count EngineCall.engineTeardown = 1 ∧
    (pluginLifetimeTrace methods).head? = some EngineCall.engineSetup ∧
    (pluginLifetimeTrace methods).getLast? = some EngineCall.engineTeardown := by
  have hmidSetup :
      (methods.map methodEngineCalls).flatten.count EngineCall.engineSetup = 0 :=
    List.count_eq_zero.2 fun h =>
      absurd (join_engineCalls_docOpen h) (by decide)
  have hmidTeardown :
      (methods.map methodEngineCalls).flatten.count EngineCall.engineTeardown = 0 :=
    List.count_eq_zero.2 fun h =>
      absurd (join_engineCalls_docOpen h) (by decide)
  refine ⟨?_, ?_, ?_, ?_⟩
  · simp [pluginLifetimeTrace, List.count_append, List.count_cons, hmidSetup]
  · simp [pluginLifetimeTrace, List.count_append, List.count_cons, hmidTeardown]
  · simp [pluginLifetimeTrace]
  · unfold pluginLifetimeTrace
    exact List.getLast?_concat _

/- ================================================================
   C1 / C2 theorems (handle registry, render failure)
   ================================================================ -/

/-- C1: closing a never-opened document handle, or closing an
already-closed handle a second time, returns `DoubleCloseError` and leaves
the registry untouched; a third, unrelated open document remains fully
usable (its accessor still succeeds) after the redundant closes. -/
theorem sbr_PdfDocumentClose_double_close_safe
    (r : Nat → HandleState) (pc : Nat → Nat) (hO h3 h0 : Nat)
    (hopen : r hO = HandleState.opened) (h3open : r h3 = HandleState.opened)
    (hne : h3 ≠ hO) (hun : r h0 = HandleState.unopened) :
    (sbr_PdfDocumentClose r h0).1 = CloseResult.doubleCloseError ∧
    (sbr_PdfDocumentClose r h0).2 = r ∧
    (sbr_PdfDocumentClose r hO).1 = CloseResult.ok ∧
    (sbr_PdfDocumentClose (sbr_PdfDocumentClose r hO).2 hO).1 =
      CloseResult.doubleCloseError ∧
    (sbr_PdfDocumentClose (sbr_PdfDocumentClose r hO).2 hO).2 =
      (sbr_PdfDocumentClose r hO).2 ∧
    docAccessor (sbr_PdfDocumentClose (sbr_PdfDocumentClose r hO).2 hO).2
      pc h3 = some (pc h3) := by
  have e0 : sbr_PdfDocumentClose r h0 = (CloseResult.doubleCloseError, r) := by
    simp [sbr_PdfDocumentClose, hun]
  have e1 : sbr_PdfDocumentClose r hO =
      (CloseResult.ok, fun k => if k = hO then HandleState.closed else r k) := by
    simp [sbr_PdfDocumentClose, hopen]
  have hr1c : (sbr_PdfDocumentClose r hO).2 hO = HandleState.closed := by
    rw [e1]
    simp
  have e2 : sbr_PdfDocumentClose (sbr_PdfDocumentClose r hO).2 hO =
      (CloseResult.doubleCloseError, (sbr_PdfDocumentClose r hO).2) := by
    generalize hgen : (sbr_PdfDocumentClose r hO).2 = r1 at hr1c ⊢
    simp [sbr_PdfDocumentClose, hr1c]
  have hr1h3 : (sbr_PdfDocumentClose r hO).2 h3 = HandleState.opened := by
    rw [e1]
    simp [hne, h3open]
  refine ⟨by rw [e0], by rw [e0], by rw [e1], by rw [e2], by rw [e2], ?_⟩
  rw [e2]
  simp [docAccessor, hr1h3]

/-- C1 witness: registry with documents 0 and 1 open; closing the
never-opened handle 5, then double-closing handle 0, yields
`DoubleCloseError` on the redundant closes while document 1 stays usable. -/
theorem sbr_PdfDocumentClose_double_close_safe_witness :
    (witnessRegistry 0 = HandleState.opened ∧
     witnessRegistry 1 = HandleState.opened ∧
     (1 : Nat) ≠ 0 ∧
     witnessRegistry 5 = HandleState.unopened) ∧
    (sbr_PdfDocumentClose
        (sbr_PdfDocumentClose witnessRegistry 0).2 0).1 =
      CloseResult.doubleCloseError ∧
    docAccessor (sbr_PdfDocumentClose
        (sbr_PdfDocumentClose witnessRegistry 0).2 0).2
      witnessPageCounts 1 = some (witnessPageCounts 1) :=
  ⟨⟨by decide, by decide, by decide, by decide⟩,
   (sbr_PdfDocumentClose_double_close_safe witnessRegistry witnessPageCounts
      0 1 5 (by decide) (by decide) (by decide) (by decide)).2.2.2.1,
   (sbr_PdfDocumentClose_double_close_safe witnessRegistry witnessPageCounts
      0 1 5 (by decide) (by decide) (by decide) (by decide)).2.2.2.2.2⟩

/-- C2: the render operation returns an `int` with 0 as the failure
sentinel, and it returns 0 whenever the page handle or the bitmap handle
is invalid (not Open), or the destination rectangle is degenerate (zero
or negative width or height). -/
theorem sbr_PdfPageRender_zero_on_invalid (e : RenderEnv) (page bmp : Nat)
    (x y width height : Int) (rotate : sbr_RotateClockwise) (flags : Nat)
    (hbad : e.pages page ≠ HandleState.opened ∨
            e.bitmaps bmp ≠ HandleState.opened ∨
            width ≤ 0 ∨ height ≤ 0) :
    sbr_PdfPageRender e page bmp x y width height rotate flags = 0 := by
  unfold sbr_PdfPageRender
  rcases hbad with h | h | h | h <;> simp [h]

/-- C2 witness: rendering with an invalid page handle returns 0. -/
theorem sbr_PdfPageRender_zero_on_invalid_witness :
    invalidRenderEnv.pages 3 ≠ HandleState.opened ∧
    sbr_PdfPageRender invalidRenderEnv 3 4 0 0 10 10
      sbr_RotateClockwise.rc0 0 = 0 :=
  ⟨by decide,
   sbr_PdfPageRender_zero_on_invalid invalidRenderEnv 3 4 0 0 10 10
     sbr_RotateClockwise.rc0 0 (Or.inl (by decide))⟩

/- ================================================================
   C3 / C4 theorems (release callbacks fire exactly once)
   ================================================================ -/

/-- C3: for every bitmap created by `sbr_PdfBitmapCreate` and then passed
to `sbr_PdfBitmapRelease`, the release callback is invoked exactly once,
with the same context passed at creation; a further release of the same
bitmap fires nothing, so no bitmap's release path fires zero times or
more than once. -/
theorem sbr_PdfBitmapRelease_fires_exactly_once (width height : Int)
    (format : Nat) (stride : Int) (scan0 callback ctx : Nat) :
    (sbr_PdfBitmapRelease
        (sbr_PdfBitmapCreate width height format stride scan0 callback ctx)).2 =
      [(callback, ctx)] ∧
    (sbr_PdfBitmapRelease (sbr_PdfBitmapRelease
        (sbr_PdfBitmapCreate width height format stride scan0 callback ctx)).1).2 =
      [] := by
  constructor <;> simp [sbr_PdfBitmapCreate, sbr_PdfBitmapRelease]

/-- Helper: engine read requests contribute no release-callback
invocations. -/
theorem releaseCallContexts_reads (reads : List (Nat × Nat)) :
    releaseCallContexts
      (reads.map fun r => CustomSourceEvent.readCall r.1 r.2) = [] := by
  induction reads with
  | nil => rfl
  | cons r rest ih =>
      simp only [List.map_cons]
      exact ih

/-- Helper: release-callback contexts split over trace concatenation. -/
theorem releaseCallContexts_append (a b : List CustomSourceEvent) :
    releaseCallContexts (a ++ b) =
      releaseCallContexts a ++ releaseCallContexts b := by
  induction a with
  | nil => rfl
  | cons e rest ih =>
      cases e with
      | readCall o l => simpa [releaseCallContexts] using ih
      | docCloseCall => simpa [releaseCallContexts] using ih
      | releaseCall c => simp [releaseCallContexts, ih]

/-- C4: for every document opened with `sbr_PdfDocumentOpenCustom` whose
source was accepted, the source's release callback is invoked exactly
once and with the accepted context — when the document is closed if
construction succeeded, or immediately if construction failed — never
twice and never omitted, even if the read callback is never called
(`reads = []`). -/
theorem sbr_PdfDocumentOpenCustom_release_exactly_once (ctx : Nat)
    (reads : List (Nat × Nat)) (constructionOk : Bool) :
    releaseCallContexts
      (sbr_PdfDocumentOpenCustomLifecycle ctx reads constructionOk) = [ctx] := by
  cases constructionOk
  · have h : sbr_PdfDocumentOpenCustomLifecycle ctx reads false =
        (reads.map fun r => CustomSourceEvent.readCall r.1 r.2) ++
          [CustomSourceEvent.releaseCall ctx] := rfl
    rw [h, releaseCallContexts_append, releaseCallContexts_reads]
    rfl
  · have h : sbr_PdfDocumentOpenCustomLifecycle ctx reads true =
        (reads.map fun r => CustomSourceEvent.readCall r.1 r.2) ++
          [CustomSourceEvent.docCloseCall, CustomSourceEvent.releaseCall ctx] := rfl
    rw [h, releaseCallContexts_append, releaseCallContexts_reads]
    rfl

/- ================================================================
   C6 / C7 theorems (direct buffers, determinism)
   ================================================================ -/

/-- Helper: writing a pattern at `addr` leaves lower addresses alone. -/
theorem writeBytes_lt (pat : List Nat) :
    ∀ (m : Mem) (addr a : Nat), a < addr → writeBytes m addr pat a = m a := by
  induction pat with
  | nil =>
      intro m addr a _
      rfl
  | cons v rest ih =>
      intro m addr a h
      rw [writeBytes, ih _ _ _ (Nat.lt_succ_of_lt h)]
      simp [writeByte, Nat.ne_of_lt h]

/-- Helper: reading back `pat.length` bytes from the write target yields
the written pattern. -/
theorem viewRead_writeBytes (pat : List Nat) :
    ∀ (m : Mem) (addr : Nat),
      viewRead (writeBytes m addr pat)
        { base := addr, size := pat.length } pat.length = pat := by
  induction pat with
  | nil =>
      intro m addr
      rfl
  | cons v rest ih =>
      intro m addr
      have hhead : writeBytes m addr (v :: rest) (addr + 0) = v := by
        rw [writeBytes, writeBytes_lt rest _ _ _ (by omega)]
        simp [writeByte]
      have htail := ih (writeByte m addr v) (addr + 1)
      unfold viewRead at htail ⊢
      simp only [List.length_cons, List.range_succ_eq_map, List.map_cons,
        List.map_map]
      rw [hhead]
      congr 1
      refine Eq.trans (List.map_congr_left ?_) htail
      intro i _
      simp only [Function.comp_apply]
      have harg : addr + Nat.succ i = addr + 1 + i := by omega
      rw [writeBytes, harg]

/-- C6: for every size and byte pattern, allocating `pat.length` bytes via
the buffer allocator (`malloc`), wrapping the returned address as a
zero-copy direct ByteBuffer (`newDirectBuffer` stores the address itself,
copying nothing), writing the pattern through the wrapped view and then
reading back through the same view yields the identical pattern. -/
theorem directBuffer_roundtrip (m : Mem) (s : AllocState) (pat : List Nat) :
    (Java_jp_espresso3389_pdf_1render_ByteBufferHelper_newDirectBuffer
        (Java_jp_espresso3389_pdf_1render_ByteBufferHelper_malloc s pat.length).2
        pat.length).base =
      (Java_jp_espresso3389_pdf_1render_ByteBufferHelper_malloc s pat.length).2 ∧
    viewRead
      (viewWrite m
        (Java_jp_espresso3389_pdf_1render_ByteBufferHelper_newDirectBuffer
          (Java_jp_espresso3389_pdf_1render_ByteBufferHelper_malloc s pat.length).2
          pat.length)
        pat)
      (Java_jp_espresso3389_pdf_1render_ByteBufferHelper_newDirectBuffer
        (Java_jp_espresso3389_pdf_1render_ByteBufferHelper_malloc s pat.length).2
        pat.length)
      pat.length = pat := by
  exact ⟨rfl, viewRead_writeBytes pat m s.nextFree⟩

/-- C7: `OpenMemory` followed by `GetPageCount` is deterministic — two
runs on byte-for-byte identical in-memory inputs with the same password
yield the same page count. -/
theorem sbr_PdfDocumentOpenMemory_deterministic (e : PdfEngineModel)
    (data1 data2 : List Nat) (pw1 pw2 : Option String)
    (hdata : data1 = data2) (hpw : pw1 = pw2) :
    openMemoryThenPageCount e data1 pw1 = openMemoryThenPageCount e data2 pw2 := by
  rw [hdata, hpw]

/-- C7 witness: two runs on the same four bytes with no password agree. -/
theorem sbr_PdfDocumentOpenMemory_deterministic_witness :
    (([37, 80, 68, 70] : List Nat) = [37, 80, 68, 70] ∧
     (none : Option String) = none) ∧
    openMemoryThenPageCount witnessEngine [37, 80, 68, 70] none =
      openMemoryThenPageCount witnessEngine [37, 80, 68, 70] none :=
  ⟨⟨rfl, rfl⟩,
   sbr_PdfDocumentOpenMemory_deterministic witnessEngine
     [37, 80, 68, 70] [37, 80, 68, 70] none none rfl rfl⟩
